import Mathlib

/-!
Shallow embedding of the video-hosting application in `src/app.py`
(exception classes, `VideoService`, `UserService`, the `upload` and
`delete_video` request handlers) and proofs of the specification claims
about them.

Conventions of the embedding:
* Python exceptions become the inductive `PyExc`; a function that can raise
  returns `Except PyExc _`.
* The two filesystem asset stores (`static/uploads`, `static/thumbnails`)
  become lists of stored path keys inside `AssetStore`; `os.path.exists` is
  list membership, a file write conses the key, `os.remove` erases it.
* The external video decoders (`VideoFileClip` / `imageio`) are modelled by a
  `DecoderEnv` oracle saying whether each path raises and, for the primary
  decoder, the duration it reports; the frames they grab are recorded as
  `Event`s so that claims about "which frame, at which time" are statable.
* `werkzeug`'s salted `generate_password_hash` / `check_password_hash` are
  abstract function parameters.
* The database tables become lists of `UserRec` / `VideoRec`; commit always
  succeeds (the record store is an external collaborator in the spec).
-/

namespace VideoApp

/-- Python exceptions raised by the application code. -/
inductive PyExc where
  | videoUploadError (msg : String)
  | thumbnailGenerationError (msg : String)
  | authenticationError (msg : String)
  | unboundLocalError (name : String)
  | osError (msg : String)
deriving DecidableEq

/-- Python `str(e)` on the exceptions above. -/
def pyStr : PyExc → String
  | PyExc.videoUploadError m => m
  | PyExc.thumbnailGenerationError m => m
  | PyExc.authenticationError m => m
  | PyExc.unboundLocalError n => "local variable " ++ n ++ " referenced before assignment"
  | PyExc.osError m => m

/-- `app.config` values fixed at startup (lines 126-129 of `app.py`). -/
def upload_folder : String := "static/uploads"

def thumbnail_folder : String := "static/thumbnails"

def allowed_extensions : List String := ["mp4", "avi", "mov", "wmv", "flv", "mkv"]

/-- `os.path.join` for the two configured single-segment roots. -/
def path_join (folder name : String) : String := folder ++ "/" ++ name

/-- Python `s.lower()` (ASCII case map suffices for the extensions involved). -/
def lowerStr (s : String) : String := String.mk (s.toList.map Char.toLower)

/-- `c != '.'`: the predicate `rsplit` scans with, reading from the right. -/
def notDot (c : Char) : Bool := c != '.'

/-- Python `s.rsplit('.', 1)[1]`: the characters after the last dot
(meaningful when a dot occurs; returns `s` itself otherwise). -/
def extAfterLastDot (s : String) : String :=
  String.mk ((s.toList.reverse.takeWhile notDot).reverse)

/-- Python `'.' in s` for the single character dot. -/
def hasDot (s : String) : Bool := s.toList.contains '.'

/-- Python `s.rsplit('.', 1)[0]`: everything before the last dot, or the whole
string when no dot occurs. -/
def stemBeforeLastDot (s : String) : String :=
  if hasDot s then
    String.mk (((s.toList.reverse.dropWhile notDot).drop 1).reverse)
  else s

/-- `VideoService._is_allowed_file` (lines 82-85). -/
def is_allowed_file (filename : String) : Bool :=
  hasDot filename && allowed_extensions.contains (lowerStr (extAfterLastDot filename))

/-- The two filesystem asset stores, as the lists of path keys they hold. -/
structure AssetStore where
  videos : List String
  thumbs : List String
deriving DecidableEq

/-- Oracle for the external decoders used by `generate_thumbnail`:
the duration the primary decoder reports for the video, and whether each
decoding path raises (`some msg`) or succeeds (`none`). -/
structure DecoderEnv where
  duration : ℚ
  primaryError : Option String
  fallbackError : Option String

/-- Observable side effects, recorded so claims about which frame is grabbed,
and which files are removed, are statable. -/
inductive Event where
  | saveFrameAt (t : ℚ)
  | readFrameIndex (n : Nat)
  | writeVideoAsset (path : String)
  | writeThumbAsset (path : String)
  | removeVideoAsset (path : String)
  | thumbFalsyBranch
deriving DecidableEq

/-- `VideoService.generate_thumbnail` (lines 35-54): try `VideoFileClip` and
grab the frame at `min(1, duration)`; on any error fall back to `imageio`
frame 0; if the fallback also raises, the outer handler wraps the fallback
error in `ThumbnailGenerationError`. -/
def generate_thumbnail (env : DecoderEnv) (video_path thumbnail_path : String)
    (st : AssetStore) : Except PyExc Bool × AssetStore × List Event :=
  match env.primaryError with
  | none =>
      (Except.ok true,
       { st with thumbs := thumbnail_path :: st.thumbs },
       [Event.saveFrameAt (min 1 env.duration), Event.writeThumbAsset thumbnail_path])
  | some _ =>
      match env.fallbackError with
      | none =>
          (Except.ok true,
           { st with thumbs := thumbnail_path :: st.thumbs },
           [Event.readFrameIndex 0, Event.writeThumbAsset thumbnail_path])
      | some e2 =>
          (Except.error (PyExc.thumbnailGenerationError ("Failed to generate thumbnail: " ++ e2)),
           st, [])

/-- The wall-clock instant `datetime.utcnow()` returns. -/
structure UtcTime where
  year : Nat
  month : Nat
  day : Nat
  hour : Nat
  minute : Nat
  second : Nat
deriving DecidableEq

/-- Zero-padded decimal rendering of width `w`, as `strftime` produces. -/
def padNum (w n : Nat) : String :=
  let s := toString n
  String.mk (List.replicate (w - s.length) '0') ++ s

/-- `datetime.strftime('%Y%m%d_%H%M%S')` (line 65). -/
def strftime_YmdHMS (t : UtcTime) : String :=
  padNum 4 t.year ++ padNum 2 t.month ++ padNum 2 t.day ++ "_" ++
  padNum 2 t.hour ++ padNum 2 t.minute ++ padNum 2 t.second

/-- The uploaded file object (`werkzeug` `FileStorage`): a `none` argument
models a falsy file object. -/
structure UploadFile where
  filename : String
deriving DecidableEq

/-- `VideoService.save_video` (lines 56-80). The `except` block (lines 76-80)
runs `os.path.exists(video_path)` before re-raising; when the exception was
raised before line 66, the local `video_path` is unbound there and Python
raises `UnboundLocalError` instead of the intended `VideoUploadError`. -/
def save_video (env : DecoderEnv) (now : UtcTime) (video_file : Option UploadFile)
    (title : String) (st : AssetStore) :
    Except PyExc (String × String) × AssetStore × List Event :=
  match video_file with
  | none =>
      -- `raise VideoUploadError("No video file selected")`, then the handler
      -- evaluates `os.path.exists(video_path)` with `video_path` unbound
      (Except.error (PyExc.unboundLocalError "video_path"), st, [])
  | some vf =>
      if vf.filename = "" then
        (Except.error (PyExc.unboundLocalError "video_path"), st, [])
      else if is_allowed_file vf.filename then
        let filename := strftime_YmdHMS now ++ "_" ++ vf.filename
        let video_path := path_join upload_folder filename
        let st1 : AssetStore := { st with videos := video_path :: st.videos }
        let thumbnail_filename := "thumb_" ++ stemBeforeLastDot filename ++ ".jpg"
        let thumbnail_path := path_join thumbnail_folder thumbnail_filename
        match generate_thumbnail env video_path thumbnail_path st1 with
        | (Except.ok b, st2, ev2) =>
            if b then
              (Except.ok (filename, thumbnail_filename), st2, Event.writeVideoAsset video_path :: ev2)
            else
              -- `raise ThumbnailGenerationError("Failed to generate thumbnail")`,
              -- caught by the handler which removes the asset and wraps
              (Except.error (PyExc.videoUploadError
                 ("Failed to upload video: " ++ "Failed to generate thumbnail")),
               if video_path ∈ st2.videos then { st2 with videos := st2.videos.erase video_path } else st2,
               Event.writeVideoAsset video_path :: ev2 ++ [Event.thumbFalsyBranch, Event.removeVideoAsset video_path])
        | (Except.error e, st2, ev2) =>
            (Except.error (PyExc.videoUploadError ("Failed to upload video: " ++ pyStr e)),
             if video_path ∈ st2.videos then { st2 with videos := st2.videos.erase video_path } else st2,
             Event.writeVideoAsset video_path :: ev2 ++ [Event.removeVideoAsset video_path])
      else
        -- `raise VideoUploadError("Invalid file type. ...")`, handler hits the
        -- unbound `video_path` as above
        (Except.error (PyExc.unboundLocalError "video_path"), st, [])

/-- Row of the `Video` table (lines 150-155). -/
structure VideoRec where
  id : Nat
  title : String
  filename : String
  thumbnail_filename : String
deriving DecidableEq

/-- Visible outcome of a POST to `/upload`. -/
inductive UploadOutcome where
  | success
  | flashedError (msg : String)
  | crashed (e : PyExc)
deriving DecidableEq

/-- The POST branch of the `upload` handler (lines 221-239): run `save_video`,
then create and commit the `Video` record; only `VideoUploadError` is caught
and flashed, any other exception escapes as a server error. -/
def upload_post (env : DecoderEnv) (now : UtcTime) (video : Option UploadFile)
    (title : String) (st : AssetStore) (vids : List VideoRec) :
    UploadOutcome × AssetStore × List VideoRec :=
  match save_video env now video title st with
  | (Except.ok (filename, thumbnail_filename), st1, _) =>
      (UploadOutcome.success, st1,
       vids ++ [{ id := vids.length + 1, title := title, filename := filename,
                  thumbnail_filename := thumbnail_filename }])
  | (Except.error (PyExc.videoUploadError m), st1, _) =>
      (UploadOutcome.flashedError m, st1, vids)
  | (Except.error e, st1, _) =>
      (UploadOutcome.crashed e, st1, vids)

/-- Oracle for OS-level failures of `os.remove` on a given path. -/
structure FsEnv where
  removeError : String → Option String

/-- `if os.path.exists(path): os.remove(path)` against one asset store. -/
def removeIfExists (fs : FsEnv) (files : List String) (path : String) :
    Except PyExc (List String) :=
  if path ∈ files then
    match fs.removeError path with
    | some m => Except.error (PyExc.osError m)
    | none => Except.ok (files.erase path)
  else Except.ok files

/-- Visible outcome of `/delete_video/<id>`. -/
inductive DeleteOutcome where
  | flashedSuccess
  | flashedError (msg : String)
  | notFound
deriving DecidableEq

/-- The `delete_video` handler (lines 250-266): one `try` block computes both
paths, conditionally removes both assets, then deletes and commits the record;
any exception jumps to the flash-error handler with the record still present. -/
def delete_video (fs : FsEnv) (st : AssetStore) (vids : List VideoRec)
    (video_id : Nat) : DeleteOutcome × AssetStore × List VideoRec :=
  match vids.find? (fun v => v.id == video_id) with
  | none => (DeleteOutcome.notFound, st, vids)
  | some video =>
      let video_path := path_join upload_folder video.filename
      let thumbnail_path := path_join thumbnail_folder video.thumbnail_filename
      match removeIfExists fs st.videos video_path with
      | Except.error e =>
          (DeleteOutcome.flashedError ("Error deleting video: " ++ pyStr e), st, vids)
      | Except.ok vfiles =>
          match removeIfExists fs st.thumbs thumbnail_path with
          | Except.error e =>
              (DeleteOutcome.flashedError ("Error deleting video: " ++ pyStr e),
               { st with videos := vfiles }, vids)
          | Except.ok tfiles =>
              (DeleteOutcome.flashedSuccess,
               { videos := vfiles, thumbs := tfiles },
               vids.eraseP (fun v => v.id == video_id))

/-- Row of the `User` table (lines 144-148). -/
structure UserRec where
  username : String
  password_hash : String
  is_superuser : Bool
deriving DecidableEq

/-- `UserService.create_user` (lines 93-111); `hash` stands for the salted
`generate_password_hash`. The `AuthenticationError`s raised inside the `try`
are caught by its own handler, rolled back and re-wrapped. Returns the
result together with the user table afterward. -/
def create_user (hash : String → String) (users : List UserRec)
    (username password : String) : Except PyExc UserRec × List UserRec :=
  if password.length < 8 then
    (Except.error (PyExc.authenticationError
       ("Failed to create user: " ++ "Password must be at least 8 characters long")), users)
  else if (users.find? (fun u => u.username == username)).isSome then
    (Except.error (PyExc.authenticationError
       ("Failed to create user: " ++ "Username already exists")), users)
  else
    let user : UserRec := { username := username, password_hash := hash password, is_superuser := false }
    (Except.ok user, users ++ [user])

/-- `UserService.authenticate_user` (lines 113-121); `check` stands for
`check_password_hash`. The generic `AuthenticationError` raised inside the
`try` is caught by its own handler and re-wrapped, identically on both
failure causes. -/
def authenticate_user (check : String → String → Bool) (users : List UserRec)
    (username password : String) : Except PyExc UserRec :=
  match users.find? (fun u => u.username == username) with
  | none =>
      Except.error (PyExc.authenticationError
        ("Authentication failed: " ++ "Invalid username or password"))
  | some user =>
      if check user.password_hash password then Except.ok user
      else
        Except.error (PyExc.authenticationError
          ("Authentication failed: " ++ "Invalid username or password"))

/-! ### Claims about the account service -/

/-- C4: authenticate with a nonexistent username and authenticate with an
existing username whose hash comparison fails both produce an
`AuthenticationError` with the same message text, so the message never
distinguishes the two causes. -/
theorem authenticate_same_message_on_both_causes
    (check : String → String → Bool) (users : List UserRec)
    (u1 p1 u2 p2 : String) (usr : UserRec)
    (h1 : users.find? (fun u => u.username == u1) = none)
    (h2 : users.find? (fun u => u.username == u2) = some usr)
    (h3 : check usr.password_hash p2 = false) :
    authenticate_user check users u1 p1 =
      Except.error (PyExc.authenticationError
        ("Authentication failed: " ++ "Invalid username or password")) ∧
    authenticate_user check users u2 p2 =
      Except.error (PyExc.authenticationError
        ("Authentication failed: " ++ "Invalid username or password")) := by
  constructor
  · unfold authenticate_user
    rw [h1]
  · unfold authenticate_user
    rw [h2]
    simp [h3]

/-- Witness for C4: a concrete single-user table where both failure causes
yield the identical message. -/
theorem authenticate_same_message_on_both_causes_witness :
    authenticate_user (fun h p => h == p) [{ username := "piyu", password_hash := "d1", is_superuser := true }] "ghost" "pw" =
      Except.error (PyExc.authenticationError
        ("Authentication failed: " ++ "Invalid username or password")) ∧
    authenticate_user (fun h p => h == p) [{ username := "piyu", password_hash := "d1", is_superuser := true }] "piyu" "wrong" =
      Except.error (PyExc.authenticationError
        ("Authentication failed: " ++ "Invalid username or password")) :=
  authenticate_same_message_on_both_causes (fun h p => h == p)
    [{ username := "piyu", password_hash := "d1", is_superuser := true }]
    "ghost" "pw" "piyu" "wrong"
    { username := "piyu", password_hash := "d1", is_superuser := true }
    (by decide) (by decide) (by decide)

/-- C5: `create_user` with a password shorter than 8 characters fails with
`AuthenticationError` and leaves the user table unchanged, whatever the
username and the existing table. -/
theorem create_user_short_password_rejected
    (hash : String → String) (users : List UserRec) (username password : String)
    (h : password.length < 8) :
    create_user hash users username password =
      (Except.error (PyExc.authenticationError
         ("Failed to create user: " ++ "Password must be at least 8 characters long")),
       users) := by
  unfold create_user
  rw [if_pos h]

/-- Witness for C5: the username is even already taken, and the short
password is still the reported failure; the table is unchanged. -/
theorem create_user_short_password_rejected_witness :
    create_user (fun p => p ++ "#h") [{ username := "bob", password_hash := "x", is_superuser := false }] "bob" "short" =
      (Except.error (PyExc.authenticationError
         ("Failed to create user: " ++ "Password must be at least 8 characters long")),
       [{ username := "bob", password_hash := "x", is_superuser := false }]) :=
  create_user_short_password_rejected (fun p => p ++ "#h")
    [{ username := "bob", password_hash := "x", is_superuser := false }] "bob" "short" (by decide)

/-! ### Claims about the thumbnail extractor -/

/-- C7: the extractor first grabs the frame at time `min(1, duration)` via the
primary decoder; on any primary error it falls back to frame index 0 of the
lightweight reader; if both raise it fails with `ThumbnailGenerationError`
carrying the fallback's (last) error, with no further attempt. -/
theorem generate_thumbnail_algorithm (env : DecoderEnv) (vp tp : String) (st : AssetStore) :
    (env.primaryError = none →
       generate_thumbnail env vp tp st =
         (Except.ok true, { st with thumbs := tp :: st.thumbs },
          [Event.saveFrameAt (min 1 env.duration), Event.writeThumbAsset tp])) ∧
    (∀ e1, env.primaryError = some e1 → env.fallbackError = none →
       generate_thumbnail env vp tp st =
         (Except.ok true, { st with thumbs := tp :: st.thumbs },
          [Event.readFrameIndex 0, Event.writeThumbAsset tp])) ∧
    (∀ e1 e2, env.primaryError = some e1 → env.fallbackError = some e2 →
       generate_thumbnail env vp tp st =
         (Except.error (PyExc.thumbnailGenerationError ("Failed to generate thumbnail: " ++ e2)),
          st, [])) := by
  refine ⟨fun hp => ?_, fun e1 hp hf => ?_, fun e1 e2 hp hf => ?_⟩
  · unfold generate_thumbnail
    rw [hp]
  · unfold generate_thumbnail
    rw [hp, hf]
  · unfold generate_thumbnail
    rw [hp, hf]

/-- Witness for C7: all three branches exercised on concrete decoder oracles
over a half-second video. -/
theorem generate_thumbnail_algorithm_witness :
    generate_thumbnail { duration := 1/2, primaryError := none, fallbackError := none } "v" "t" { videos := [], thumbs := [] } =
      (Except.ok true, { videos := [], thumbs := ["t"] },
       [Event.saveFrameAt (min 1 (1/2 : ℚ)), Event.writeThumbAsset "t"]) ∧
    generate_thumbnail { duration := 1/2, primaryError := some "boom", fallbackError := none } "v" "t" { videos := [], thumbs := [] } =
      (Except.ok true, { videos := [], thumbs := ["t"] },
       [Event.readFrameIndex 0, Event.writeThumbAsset "t"]) ∧
    generate_thumbnail { duration := 1/2, primaryError := some "boom", fallbackError := some "crash" } "v" "t" { videos := [], thumbs := [] } =
      (Except.error (PyExc.thumbnailGenerationError ("Failed to generate thumbnail: " ++ "crash")),
       { videos := [], thumbs := [] }, []) :=
  ⟨(generate_thumbnail_algorithm { duration := 1/2, primaryError := none, fallbackError := none } "v" "t" { videos := [], thumbs := [] }).1 rfl,
   (generate_thumbnail_algorithm { duration := 1/2, primaryError := some "boom", fallbackError := none } "v" "t" { videos := [], thumbs := [] }).2.1 "boom" rfl rfl,
   (generate_thumbnail_algorithm { duration := 1/2, primaryError := some "boom", fallbackError := some "crash" } "v" "t" { videos := [], thumbs := [] }).2.2 "boom" "crash" rfl rfl⟩

/-- C10: `generate_thumbnail` can only return `True` when it does not raise
(every non-error result is `Except.ok true`), hence the falsy branch of
`save_video` that would raise the bare
`ThumbnailGenerationError("Failed to generate thumbnail")` is never taken on
any run. -/
theorem generate_thumbnail_never_falsy (env : DecoderEnv) (vp tp : String)
    (st st2 : AssetStore) (now : UtcTime) (vfile : Option UploadFile) (title : String) :
    ((generate_thumbnail env vp tp st).1 = Except.ok true ∨
     (∃ m, (generate_thumbnail env vp tp st).1 = Except.error (PyExc.thumbnailGenerationError m))) ∧
    (save_video env now vfile title st2).2.2.count Event.thumbFalsyBranch = 0 := by
  have hres : (generate_thumbnail env vp tp st).1 = Except.ok true ∨
      (∃ m, (generate_thumbnail env vp tp st).1 = Except.error (PyExc.thumbnailGenerationError m)) := by
    unfold generate_thumbnail
    cases hp : env.primaryError with
    | none => exact Or.inl rfl
    | some e1 =>
      cases hf : env.fallbackError with
      | none => exact Or.inl rfl
      | some e2 => exact Or.inr ⟨"Failed to generate thumbnail: " ++ e2, rfl⟩
  refine ⟨hres, ?_⟩
  cases vfile with
  | none => rfl
  | some vf =>
    by_cases hemp : vf.filename = ""
    · simp [save_video, hemp]
    · by_cases hext : is_allowed_file vf.filename
      · cases hp2 : env.primaryError with
        | none => simp [save_video, generate_thumbnail, hemp, hext, hp2]
        | some e1 =>
          cases hf2 : env.fallbackError with
          | none => simp [save_video, generate_thumbnail, hemp, hext, hp2, hf2]
          | some e2 => simp [save_video, generate_thumbnail, hemp, hext, hp2, hf2]
      · simp [save_video, hemp, hext]

/-! ### Claims about the ingestion pipeline -/

/-- C1: when both thumbnail methods raise, the upload run removes the video
asset it had just persisted (the stores return to their initial state), the
failure surfaces as a caught `VideoUploadError` wrapping the underlying
thumbnail cause, and the `Video` table is unchanged. -/
theorem upload_thumbnail_failure_cleanup
    (env : DecoderEnv) (now : UtcTime) (vf : UploadFile) (title : String)
    (st : AssetStore) (vids : List VideoRec) (e1 e2 : String)
    (hp : env.primaryError = some e1) (hf : env.fallbackError = some e2)
    (hname : vf.filename ≠ "") (hext : is_allowed_file vf.filename = true) :
    upload_post env now (some vf) title st vids =
      (UploadOutcome.flashedError
         ("Failed to upload video: " ++ ("Failed to generate thumbnail: " ++ e2)),
       st, vids) := by
  simp [upload_post, save_video, generate_thumbnail, pyStr, hp, hf, hname, hext]

/-- Witness for C1: a concrete upload of `cat.mp4` where both decoders raise;
the run ends in the flashed wrapped error with stores and table unchanged. -/
theorem upload_thumbnail_failure_cleanup_witness :
    upload_post { duration := 9, primaryError := some "boom", fallbackError := some "crash" }
        { year := 2025, month := 1, day := 2, hour := 3, minute := 4, second := 5 }
        (some { filename := "cat.mp4" }) "Cat Video"
        { videos := ["static/uploads/old.mp4"], thumbs := [] } [] =
      (UploadOutcome.flashedError
         ("Failed to upload video: " ++ ("Failed to generate thumbnail: " ++ "crash")),
       { videos := ["static/uploads/old.mp4"], thumbs := [] }, []) :=
  upload_thumbnail_failure_cleanup
    { duration := 9, primaryError := some "boom", fallbackError := some "crash" }
    { year := 2025, month := 1, day := 2, hour := 3, minute := 4, second := 5 }
    { filename := "cat.mp4" } "Cat Video"
    { videos := ["static/uploads/old.mp4"], thumbs := [] } [] "boom" "crash"
    rfl rfl (by decide) (by decide)

/-- C2, evaluated at the failing inputs: a rejected extension, an empty
filename, and a missing file all make `save_video` raise
`UnboundLocalError` for `video_path` (the cleanup handler reads the
still-unbound local before it can re-raise `VideoUploadError`), which the
`upload` route's `except VideoUploadError` does not catch, so the request
crashes; no asset is written in any of the three cases. -/
theorem upload_validation_failure_raises_unbound_local :
    save_video { duration := 1, primaryError := none, fallbackError := none }
        { year := 2025, month := 1, day := 2, hour := 3, minute := 4, second := 5 }
        (some { filename := "document.txt" }) "My Doc" { videos := [], thumbs := [] } =
      (Except.error (PyExc.unboundLocalError "video_path"), { videos := [], thumbs := [] }, []) ∧
    save_video { duration := 1, primaryError := none, fallbackError := none }
        { year := 2025, month := 1, day := 2, hour := 3, minute := 4, second := 5 }
        (some { filename := "" }) "My Doc" { videos := [], thumbs := [] } =
      (Except.error (PyExc.unboundLocalError "video_path"), { videos := [], thumbs := [] }, []) ∧
    save_video { duration := 1, primaryError := none, fallbackError := none }
        { year := 2025, month := 1, day := 2, hour := 3, minute := 4, second := 5 }
        none "My Doc" { videos := [], thumbs := [] } =
      (Except.error (PyExc.unboundLocalError "video_path"), { videos := [], thumbs := [] }, []) ∧
    upload_post { duration := 1, primaryError := none, fallbackError := none }
        { year := 2025, month := 1, day := 2, hour := 3, minute := 4, second := 5 }
        (some { filename := "document.txt" }) "My Doc" { videos := [], thumbs := [] } [] =
      (UploadOutcome.crashed (PyExc.unboundLocalError "video_path"),
       { videos := [], thumbs := [] }, []) :=
  ⟨rfl, rfl, rfl, rfl⟩

/-- C9: a successful ingestion returns the storage filename
`strftime(now) ++ "_" ++ declared-filename` and the thumbnail filename
`"thumb_" ++ (storage filename with its last-dot extension removed) ++ ".jpg"`. -/
theorem save_video_success_names
    (env : DecoderEnv) (now : UtcTime) (vf : UploadFile) (title : String) (st : AssetStore)
    (hname : vf.filename ≠ "") (hext : is_allowed_file vf.filename = true)
    (hok : env.primaryError = none ∨ env.fallbackError = none) :
    (save_video env now (some vf) title st).1 =
      Except.ok (strftime_YmdHMS now ++ "_" ++ vf.filename,
        "thumb_" ++ stemBeforeLastDot (strftime_YmdHMS now ++ "_" ++ vf.filename) ++ ".jpg") := by
  rcases hok with hp | hf
  · simp [save_video, generate_thumbnail, hname, hext, hp]
  · cases hp2 : env.primaryError with
    | none => simp [save_video, generate_thumbnail, hname, hext, hp2]
    | some e1 => simp [save_video, generate_thumbnail, hname, hext, hp2, hf]

/-- Witness for C9: uploading `cat.mp4` at 2025-01-02 03:04:05 yields
`20250102_030405_cat.mp4` and `thumb_20250102_030405_cat.jpg`. -/
theorem save_video_success_names_witness :
    (save_video { duration := 9, primaryError := none, fallbackError := none }
        { year := 2025, month := 1, day := 2, hour := 3, minute := 4, second := 5 }
        (some { filename := "cat.mp4" }) "Cat Video" { videos := [], thumbs := [] }).1 =
      Except.ok ("20250102_030405_cat.mp4", "thumb_20250102_030405_cat.jpg") := by
  have h := save_video_success_names
    { duration := 9, primaryError := none, fallbackError := none }
    { year := 2025, month := 1, day := 2, hour := 3, minute := 4, second := 5 }
    { filename := "cat.mp4" } "Cat Video" { videos := [], thumbs := [] }
    (by decide) (by decide) (Or.inl rfl)
  rw [h]
  rfl

/-! ### Uniqueness of usernames under repeated registration (C6) -/

theorem find?_append_of_none {α : Type} (p : α → Bool) (l1 l2 : List α)
    (h : l1.find? p = none) : (l1 ++ l2).find? p = l2.find? p := by
  induction l1 with
  | nil => rfl
  | cons a t ih =>
    cases hpa : p a with
    | true =>
      rw [List.find?_cons_of_pos _ hpa] at h
      exact absurd h (by simp)
    | false =>
      have hpa2 : ¬ p a = true := by simp [hpa]
      rw [List.cons_append, List.find?_cons_of_neg _ hpa2]
      rw [List.find?_cons_of_neg _ hpa2] at h
      exact ih h

theorem filter_eq_nil_of_find?_none {α : Type} (p : α → Bool) (l : List α)
    (h : l.find? p = none) : l.filter p = [] := by
  rw [List.filter_eq_nil_iff]
  exact fun a ha => List.find?_eq_none.mp h a ha

/-- C6: starting from a table with no record for `username`, registering it
twice with valid passwords makes the second `create_user` fail with
`AuthenticationError` ("Username already exists", wrapped), and exactly one
record with that username is in the table afterward. -/
theorem create_user_duplicate_username
    (hash : String → String) (users : List UserRec) (username p1 p2 : String)
    (h1 : 8 ≤ p1.length) (h2 : 8 ≤ p2.length)
    (h0 : users.find? (fun u => u.username == username) = none) :
    (create_user hash (create_user hash users username p1).2 username p2).1 =
      Except.error (PyExc.authenticationError
        ("Failed to create user: " ++ "Username already exists")) ∧
    ((create_user hash (create_user hash users username p1).2 username p2).2.filter
       (fun u => u.username == username)).length = 1 := by
  have hn1 : ¬ p1.length < 8 := by omega
  have hn2 : ¬ p2.length < 8 := by omega
  have hfirst : (create_user hash users username p1).2 =
      users ++ [{ username := username, password_hash := hash p1, is_superuser := false }] := by
    unfold create_user
    rw [if_neg hn1, if_neg (by rw [h0]; simp)]
  have hfind2 : ((users ++ [({ username := username, password_hash := hash p1, is_superuser := false } : UserRec)]).find?
      (fun u => u.username == username)).isSome = true := by
    rw [find?_append_of_none _ _ _ h0]
    simp [List.find?]
  constructor
  · rw [hfirst]
    unfold create_user
    rw [if_neg hn2, if_pos hfind2]
  · rw [hfirst]
    unfold create_user
    rw [if_neg hn2, if_pos hfind2]
    simp only [List.filter_append, filter_eq_nil_of_find?_none _ _ h0]
    simp [List.filter]

/-- Witness for C6: registering `alice` twice on an initially unrelated table
leaves exactly one `alice` record and a failing second call. -/
theorem create_user_duplicate_username_witness :
    (create_user (fun p => p ++ "#h")
        (create_user (fun p => p ++ "#h")
          [{ username := "piyu", password_hash := "x", is_superuser := true }]
          "alice" "password1").2
        "alice" "password2").1 =
      Except.error (PyExc.authenticationError
        ("Failed to create user: " ++ "Username already exists")) ∧
    ((create_user (fun p => p ++ "#h")
        (create_user (fun p => p ++ "#h")
          [{ username := "piyu", password_hash := "x", is_superuser := true }]
          "alice" "password1").2
        "alice" "password2").2.filter (fun u => u.username == "alice")).length = 1 :=
  create_user_duplicate_username (fun p => p ++ "#h")
    [{ username := "piyu", password_hash := "x", is_superuser := true }]
    "alice" "password1" "password2" (by decide) (by decide) (by decide)

/-! ### Characterisation of the extension check (C8) -/

theorem takeWhile_notDot_append (l1 l2 : List Char) (h : '.' ∉ l1) :
    (l1 ++ '.' :: l2).takeWhile notDot = l1 := by
  induction l1 with
  | nil => rw [List.nil_append, List.takeWhile_cons_of_neg (by decide)]
  | cons a t ih =>
    have ha : notDot a = true := by
      have : a ≠ '.' := fun he => h (he ▸ List.mem_cons_self a t)
      simp [notDot, this]
    rw [List.cons_append, List.takeWhile_cons_of_pos ha,
        ih (fun hm => h (List.mem_cons_of_mem a hm))]

theorem dropWhile_notDot_head (r : List Char) (h : '.' ∈ r) :
    ∃ d, r.dropWhile notDot = '.' :: d ∧ '.' ∉ r.takeWhile notDot := by
  induction r with
  | nil => cases h
  | cons a r ih =>
    by_cases ha : a = '.'
    · subst ha
      refine ⟨r, ?_, ?_⟩
      · exact List.dropWhile_cons_of_neg (by decide)
      · rw [List.takeWhile_cons_of_neg (by decide)]
        simp
    · have hpa : notDot a = true := by simp [notDot, ha]
      have hmem : '.' ∈ r := by
        rcases List.mem_cons.mp h with h1 | h1
        · exact absurd h1.symm ha
        · exact h1
      obtain ⟨d, hd, ht⟩ := ih hmem
      refine ⟨d, ?_, ?_⟩
      · rw [List.dropWhile_cons_of_pos hpa, hd]
      · rw [List.takeWhile_cons_of_pos hpa]
        intro hm
        rcases List.mem_cons.mp hm with h1 | h1
        · exact ha h1.symm
        · exact ht h1

/-- C8: `_is_allowed_file` accepts a declared filename exactly when the
filename splits as `stem ++ "." ++ ext` with no further dot in `ext` and the
lowercased `ext` a member of {mp4, avi, mov, wmv, flv, mkv}. -/
theorem is_allowed_file_iff (f : String) :
    is_allowed_file f = true ↔
      ∃ stem ext : List Char, f.toList = stem ++ '.' :: ext ∧ '.' ∉ ext ∧
        String.mk (ext.map Char.toLower) ∈ allowed_extensions := by
  constructor
  · intro h
    rw [is_allowed_file, Bool.and_eq_true] at h
    obtain ⟨hdot, hmem⟩ := h
    have hdm : '.' ∈ f.toList := by
      rw [hasDot] at hdot
      simpa using hdot
    have hrm : '.' ∈ f.toList.reverse := List.mem_reverse.mpr hdm
    obtain ⟨d, hd, ht⟩ := dropWhile_notDot_head _ hrm
    have hsplit : f.toList.reverse = f.toList.reverse.takeWhile notDot ++ '.' :: d := by
      conv_lhs => rw [← List.takeWhile_append_dropWhile notDot f.toList.reverse]
      rw [hd]
    refine ⟨d.reverse, (f.toList.reverse.takeWhile notDot).reverse, ?_, ?_, ?_⟩
    · conv_lhs => rw [← List.reverse_reverse f.toList, hsplit]
      simp
    · exact fun hm => ht (List.mem_reverse.mp hm)
    · have h3 : lowerStr (extAfterLastDot f) =
          String.mk ((f.toList.reverse.takeWhile notDot).reverse.map Char.toLower) := rfl
      rw [h3] at hmem
      simpa using hmem
  · rintro ⟨stem, ext, hsplit, hns, hmem⟩
    rw [is_allowed_file, Bool.and_eq_true]
    constructor
    · rw [hasDot, hsplit]
      simp
    · have hext : extAfterLastDot f = String.mk ext := by
        rw [extAfterLastDot, hsplit, List.reverse_append, List.reverse_cons,
            List.append_assoc, List.singleton_append,
            takeWhile_notDot_append _ _ (fun hm => hns (List.mem_reverse.mp hm)),
            List.reverse_reverse]
      rw [hext]
      have h3 : lowerStr (String.mk ext) = String.mk (ext.map Char.toLower) := rfl
      rw [h3]
      simpa using hmem

/-! ### Admin deletion of a video (C3) -/

theorem removeIfExists_ok (fs : FsEnv) (files : List String) (path : String)
    (h : fs.removeError path = none) :
    removeIfExists fs files path = Except.ok (files.erase path) := by
  unfold removeIfExists
  by_cases hm : path ∈ files
  · rw [if_pos hm, h]
  · rw [if_neg hm, List.erase_of_not_mem hm]

/-- C3 counterexample: when removing the video asset raises (here a permission
error), the handler catches the exception before the thumbnail removal and
the record deletion run, so the thumbnail asset deletion is never attempted
and the `Video` record survives — contradicting the claim at this input. -/
theorem delete_video_asset_failure_blocks_record :
    delete_video
        { removeError := fun p => if p = "static/uploads/cat.mp4" then some "Permission denied" else none }
        { videos := ["static/uploads/cat.mp4"], thumbs := ["static/thumbnails/thumb_cat.jpg"] }
        [{ id := 1, title := "Cat Video", filename := "cat.mp4", thumbnail_filename := "thumb_cat.jpg" }] 1 =
      (DeleteOutcome.flashedError ("Error deleting video: " ++ "Permission denied"),
       { videos := ["static/uploads/cat.mp4"], thumbs := ["static/thumbnails/thumb_cat.jpg"] },
       [{ id := 1, title := "Cat Video", filename := "cat.mp4", thumbnail_filename := "thumb_cat.jpg" }]) :=
  rfl

/-- C3 amended: when neither asset removal raises, the existing video handled
by `/delete_video/<id>` has both asset deletions carried out (each guarded by
an existence check) and the `Video` record deleted; an asset-removal
exception instead aborts the remaining steps, as the counterexample shows. -/
theorem delete_video_removes_assets_and_record
    (fs : FsEnv) (st : AssetStore) (vids : List VideoRec) (video_id : Nat) (video : VideoRec)
    (hfind : vids.find? (fun v => v.id == video_id) = some video)
    (hv : fs.removeError (path_join upload_folder video.filename) = none)
    (ht : fs.removeError (path_join thumbnail_folder video.thumbnail_filename) = none) :
    delete_video fs st vids video_id =
      (DeleteOutcome.flashedSuccess,
       { videos := st.videos.erase (path_join upload_folder video.filename),
         thumbs := st.thumbs.erase (path_join thumbnail_folder video.thumbnail_filename) },
       vids.eraseP (fun v => v.id == video_id)) := by
  simp only [delete_video, hfind, removeIfExists_ok fs _ _ hv, removeIfExists_ok fs _ _ ht]

/-- Witness for the amended C3: a concrete deletion on a store whose removes
succeed erases both assets and the record. -/
theorem delete_video_removes_assets_and_record_witness :
    delete_video { removeError := fun _ => none }
        { videos := ["static/uploads/cat.mp4"], thumbs := ["static/thumbnails/thumb_cat.jpg"] }
        [{ id := 1, title := "Cat Video", filename := "cat.mp4", thumbnail_filename := "thumb_cat.jpg" }] 1 =
      (DeleteOutcome.flashedSuccess, { videos := [], thumbs := [] }, []) := by
  have h := delete_video_removes_assets_and_record { removeError := fun _ => none }
    { videos := ["static/uploads/cat.mp4"], thumbs := ["static/thumbnails/thumb_cat.jpg"] }
    [{ id := 1, title := "Cat Video", filename := "cat.mp4", thumbnail_filename := "thumb_cat.jpg" }] 1
    { id := 1, title := "Cat Video", filename := "cat.mp4", thumbnail_filename := "thumb_cat.jpg" }
    rfl rfl rfl
  rw [h]
  rfl

end VideoApp
